import Mathlib

/-!
Shallow embedding of the after-school planner (core/scheduler.py,
core/parsers_bell.py, core/parsers_calendar.py, core/crawler.py and the
run-page's no-school source selection), with theorems checking the
natural-language specification against the code.

Conventions of the embedding:
* a Python `datetime.time` is a number of minutes since midnight (`Nat`,
  always < 1440 when built by the code);
* a Python `datetime.date` is its ordinal day number (`Nat`); Python's
  `date.weekday()` (Monday = 0) becomes `(d + 6) % 7`, since ordinal 1 is
  a Monday;
* Python string operations are re-implemented on `List Char` (ASCII
  suffices for all inputs involved) because the claims only involve
  ASCII keyword matching;
* calls out of the repository (network fetches, the `ics` library,
  `dateutil` parsing, the OpenAI client) are abstracted as explicit
  arguments: an `Option`/function argument stands for the
  success-or-raise outcome of the external call.
-/

/-! ## Python string primitives, re-implemented on `List Char` -/

/-- Prefix test on character lists (`l₁` is a prefix of `l₂`). -/
def isPrefixChars : List Char → List Char → Bool
  | [], _ => true
  | _ :: _, [] => false
  | a :: as, b :: bs => a == b && isPrefixChars as bs

/-- Substring containment on character lists: Python's `needle in hay`. -/
def containsChars (needle : List Char) : List Char → Bool
  | [] => needle.isEmpty
  | c :: rest => isPrefixChars needle (c :: rest) || containsChars needle rest

/-- Python's `needle in hay` for strings. -/
def containsSub (needle hay : String) : Bool :=
  containsChars needle.data hay.data

/-- Python's `s.endswith(suffix)`. -/
def endsWithSub (suffix s : String) : Bool :=
  isPrefixChars suffix.data.reverse s.data.reverse

/-- Python's `str.lower` (ASCII case folding, as used by the sources). -/
def lowerStr (s : String) : String :=
  ⟨s.data.map Char.toLower⟩

/-- Python's `s.strip()`: drop whitespace from both ends. -/
def stripChars (cs : List Char) : List Char :=
  ((cs.dropWhile Char.isWhitespace).reverse.dropWhile Char.isWhitespace).reverse

/-- Python's `s.strip()` on strings. -/
def stripStr (s : String) : String :=
  ⟨stripChars s.data⟩

/-- Splitting a character list on whitespace runs, dropping empty pieces:
Python's `s.split()` with no argument. -/
def splitWsChars (cs : List Char) : List (List Char) :=
  match cs with
  | [] => []
  | c :: rest =>
    if c.isWhitespace then splitWsChars rest
    else
      match splitWsChars rest with
      | [] => [[c]]
      | w :: ws => if rest.head?.any (fun d => !d.isWhitespace) then (c :: w) :: ws
                   else [c] :: w :: ws

/-- Join character-list words with single spaces: `" ".join(words)`. -/
def joinSpaceChars : List (List Char) → List Char
  | [] => []
  | [w] => w
  | w :: ws => w ++ ' ' :: joinSpaceChars ws

/-- Python's `" ".join(s.split())`: collapse internal whitespace. -/
def collapseWs (s : String) : String :=
  ⟨joinSpaceChars (splitWsChars s.data)⟩

/-- Python's `s[:n]` on strings. -/
def takeStr (s : String) (n : Nat) : String :=
  ⟨s.data.take n⟩

/-! ## core/scheduler.py -/

/-- WEEKDAYS table from core/scheduler.py lines 8-23, accepting several
common spellings and abbreviations (association list standing for the
Python dict). -/
def WEEKDAYS : List (String × Nat) :=
  [("mon", 0), ("monday", 0),
   ("tue", 1), ("tues", 1), ("tuesday", 1),
   ("wed", 2), ("weds", 2), ("wednesday", 2),
   ("thu", 3), ("thur", 3), ("thurs", 3), ("thursday", 3),
   ("fri", 4), ("friday", 4)]

/-- ScheduleParams dataclass. Times are minutes since midnight; the two
minute counts are `Int` because Python's ints are signed. -/
structure ScheduleParams where
  buffer_minutes : Int
  session_duration_minutes : Int
  earliest_start : Nat
  latest_end : Nat
  target_sessions : Nat
  min_sessions : Nat
deriving Repr, DecidableEq

/-- Wrapping of `datetime.combine(today, t) + timedelta(minutes=m)` back to a
`.time()`: total minutes reduced modulo one day.  `Int.emod` agrees with
Python's `%` on negatives. -/
def timeOfMinutes (x : Int) : Nat :=
  (x % 1440).toNat

/-- clamp_start (scheduler.py lines 34-36): dismissal plus buffer, clamped
up to the earliest allowed start. -/
def clamp_start (dismissal : Nat) (earliest : Nat) (buffer_min : Int) : Nat :=
  max (timeOfMinutes (dismissal + buffer_min)) earliest

/-- _weekday_index (scheduler.py lines 38-47): normalise, look up, retry with
the first three characters, raise `ValueError` otherwise (modelled as
`Except.error`). -/
def _weekday_index (weekday_str : String) : Except String Nat :=
  if weekday_str = "" then .error "Weekday string is empty or None."
  else
    let key := lowerStr (stripStr weekday_str)
    let key := if (WEEKDAYS.lookup key).isNone then takeStr key 3 else key
    match WEEKDAYS.lookup key with
    | some v => .ok v
    | none => .error ("Unrecognized weekday: " ++ weekday_str)

/-- Python's `date.weekday()` (Monday = 0) on ordinal day numbers. -/
def pyWeekday (d : Nat) : Nat := (d + 6) % 7

/-- Loop body of `while d.weekday() != wd: d += 1` with explicit fuel.
Seven steps of fuel always suffice: weekdays cycle with period 7 and the
indices stored in WEEKDAYS are all below 7. -/
def alignWeekdayGo (wd : Nat) : Nat → Nat → Nat
  | 0, d => d
  | fuel + 1, d => if pyWeekday d = wd then d else alignWeekdayGo wd fuel (d + 1)

/-- First date at or after `d` whose weekday is `wd` (scheduler.py lines
77-79). -/
def alignWeekday (wd : Nat) (d : Nat) : Nat :=
  alignWeekdayGo wd 7 d

/-- One emitted session dict (scheduler.py lines 84-90). -/
structure Session where
  school : String
  date : Nat
  start_time : Nat
  end_time : Nat
  dismissal : Nat
deriving Repr, DecidableEq

/-- Generation loop of compute_weekly_sessions (scheduler.py lines 82-91):
`while d <= quarter_end and len(sessions) < target`, skipping no-school
dates, stepping a week at a time.  `remaining` is `target - len(sessions)`.
The explicit `fuel` makes the recursion structural; a call with
`fuel = quarter_end + 1 - d` runs the loop to completion because `d`
grows by 7 every step. -/
def genSessionsGo (school : String) (st en dis : Nat) (noSchool : Nat → Bool)
    (qend : Nat) : Nat → Nat → Nat → List Session
  | 0, _, _ => []
  | fuel + 1, remaining, d =>
    if d ≤ qend ∧ 0 < remaining then
      if noSchool d then
        genSessionsGo school st en dis noSchool qend fuel remaining (d + 7)
      else
        ⟨school, d, st, en, dis⟩ ::
          genSessionsGo school st en dis noSchool qend fuel (remaining - 1) (d + 7)
    else []

/-- Start/end window computation of compute_weekly_sessions (scheduler.py
lines 63-72): buffered, clamped start; end capped at `latest_end`, with the
start pushed back to `latest_end - duration` when the cap bites. -/
def sessionWindow (p : ScheduleParams) (dismissal : Nat) : Nat × Nat :=
  let start_time := clamp_start dismissal p.earliest_start p.buffer_minutes
  let end_time := timeOfMinutes (start_time + p.session_duration_minutes)
  if p.latest_end < end_time then
    let latest_start_allowed :=
      timeOfMinutes ((p.latest_end : Int) - p.session_duration_minutes)
    (if latest_start_allowed < start_time then latest_start_allowed else start_time,
     p.latest_end)
  else (start_time, end_time)

/-- compute_weekly_sessions (scheduler.py lines 49-93).  The
`dismissal_time_str` argument of the source is replaced by the minutes
value `dtp.parse(dismissal_time_str).time()` yields; the claims quantify
over dismissal strings that parse to a time of day, so the embedding
quantifies over the parsed time directly. -/
def compute_weekly_sessions (school : String) (weekday_str : String)
    (dismissal : Nat) (quarter_start quarter_end : Nat)
    (params : ScheduleParams) (no_school : Nat → Bool) :
    Except String (List Session) :=
  match _weekday_index weekday_str with
  | .error e => .error e
  | .ok wd =>
    let w := sessionWindow params dismissal
    let d0 := alignWeekday wd quarter_start
    .ok (genSessionsGo school w.1 w.2 dismissal no_school quarter_end
          (quarter_end + 1 - d0) params.target_sessions d0)

example : _weekday_index "Tues" = .ok 1 := rfl
example : _weekday_index "friend" = .ok 4 := rfl
example : _weekday_index "Saturday" = .error "Unrecognized weekday: Saturday" := rfl
example :
    compute_weekly_sessions "s" "mon" 840 1 1
      ⟨0, 300, 840, 1020, 1, 0⟩ (fun _ => false) =
    .ok [⟨"s", 1, 720, 1020, 840⟩] := rfl

/-! ## core/parsers_bell.py

The regexes of the source,
`TIME_REGEX  = \b(1[0-2]|0?[1-9]):([0-5][0-9])\s*(am|pm)\b` and
`ALT_TIME_REGEX = \b(1[0-2]|0?[1-9])\s*(am|pm)\b` (both case-insensitive,
applied to already-lowercased text), are implemented as a character-level
matcher with the same ordered-alternation and leftmost-search semantics as
`re.search`, returning `group(0)`. -/

/-- Word character for the regex `\b` boundary (`[A-Za-z0-9_]`). -/
def isWordChar (c : Char) : Bool := c.isAlphanum || c == '_'

/-- `\b` holds after the match when the rest starts with a non-word
character or is empty. -/
def boundaryAfter : List Char → Bool
  | [] => true
  | c :: _ => !isWordChar c

/-- Match `(am|pm)\b` (lowercased input), returning the matched characters
and the rest. -/
def matchAmPm : List Char → Option (List Char × List Char)
  | c :: 'm' :: rest =>
    if (c == 'a' || c == 'p') && boundaryAfter rest then some ([c, 'm'], rest)
    else none
  | _ => none

/-- Match `[0-5][0-9]` (the minutes group). -/
def matchMinutes : List Char → Option (List Char × List Char)
  | a :: b :: rest =>
    if '0' ≤ a ∧ a ≤ '5' ∧ b.isDigit then some ([a, b], rest) else none
  | _ => none

/-- Greedy `\s*`: the consumed whitespace and the rest. -/
def spanWs (cs : List Char) : List Char × List Char :=
  (cs.takeWhile Char.isWhitespace, cs.dropWhile Char.isWhitespace)

/-- The hour group `(1[0-2]|0?[1-9])`: every way it can match at the head
of the input, in regex preference order (alternation is ordered, `0?` is
greedy). -/
def hourAlts (cs : List Char) : List (List Char × List Char) :=
  (match cs with
   | '1' :: d :: rest => if '0' ≤ d ∧ d ≤ '2' then [(['1', d], rest)] else []
   | _ => []) ++
  (match cs with
   | '0' :: d :: rest => if '1' ≤ d ∧ d ≤ '9' then [(['0', d], rest)] else []
   | _ => []) ++
  (match cs with
   | d :: rest => if '1' ≤ d ∧ d ≤ '9' then [([d], rest)] else []
   | _ => [])

/-- Continuation of TIME_REGEX after the hour: `:[0-5][0-9]\s*(am|pm)\b`. -/
def timeTail (cs : List Char) : Option (List Char) :=
  match cs with
  | ':' :: rest =>
    match matchMinutes rest with
    | some (mins, r2) =>
      let (sp, r3) := spanWs r2
      match matchAmPm r3 with
      | some (ap, _) => some (':' :: (mins ++ sp ++ ap))
      | none => none
    | none => none
  | _ => none

/-- Continuation of ALT_TIME_REGEX after the hour: `\s*(am|pm)\b`. -/
def altTail (cs : List Char) : Option (List Char) :=
  let (sp, r) := spanWs cs
  (matchAmPm r).map (fun p => sp ++ p.1)

/-- TIME_REGEX attempted at the current position (after its `\b`). -/
def matchTimeAt (cs : List Char) : Option (List Char) :=
  (hourAlts cs).findSome? (fun h => (timeTail h.2).map (h.1 ++ ·))

/-- ALT_TIME_REGEX attempted at the current position (after its `\b`). -/
def matchAltTimeAt (cs : List Char) : Option (List Char) :=
  (hourAlts cs).findSome? (fun h => (altTail h.2).map (h.1 ++ ·))

/-- `re.search`: try the pattern at each position from the left, attempting
only where the leading `\b` holds (the previous character, if any, is not a
word character). -/
def searchFrom (f : List Char → Option (List Char)) :
    Option Char → List Char → Option (List Char)
  | _, [] => none
  | prev, c :: rest =>
    let ok := match prev with | none => true | some p => !isWordChar p
    match (if ok then f (c :: rest) else none) with
    | some m => some m
    | none => searchFrom f (some c) rest

/-- `TIME_REGEX.search(s)` returning `group(0)`. -/
def timeSearch (s : String) : Option String :=
  (searchFrom matchTimeAt none s.data).map (⟨·⟩)

/-- `ALT_TIME_REGEX.search(s)` returning `group(0)`. -/
def altTimeSearch (s : String) : Option String :=
  (searchFrom matchAltTimeAt none s.data).map (⟨·⟩)

/-- `TIME_REGEX.search(line) or ALT_TIME_REGEX.search(line)` with
`group(0)` (parsers_bell.py lines 19 and 24). -/
def findTime (s : String) : Option String :=
  match timeSearch s with
  | some m => some m
  | none => altTimeSearch s

/-- KEY_ROWS from parsers_bell.py line 8. -/
def KEY_ROWS : List String :=
  ["dismissal", "release", "end of day", "school ends", "regular day",
   "mon", "tue", "wed", "thu", "fri", "minimum day", "early release"]

/-- Keyword list of the plain-text scan (parsers_bell.py line 23). -/
def LINE_KEYS : List String :=
  ["dismissal", "release", "end of day", "school hours", "minimum day"]

/-- Abstracted HTML document as BeautifulSoup sees it for this parser: a
sequence of tables (rows of cell texts) and free text lines. -/
inductive HtmlBlock where
  | table (rows : List (List String)) : HtmlBlock
  | text (line : String) : HtmlBlock
deriving Repr, DecidableEq

/-- Cell normalisation
`" ".join(td.get_text(" ", strip=True).split()).lower()`
(parsers_bell.py line 15). -/
def normCell (s : String) : String := lowerStr (collapseWs s)

/-- `" ".join(cells)` on already-normalised cells. -/
def joinSpaceStr (l : List String) : String :=
  ⟨joinSpaceChars (l.map String.data)⟩

/-- `soup.get_text("\n", strip=True).lower().splitlines()`: every text node
(each table cell on its own line, each free line as itself), stripped,
whitespace-only nodes dropped, then lowercased. -/
def docTextLines (doc : List HtmlBlock) : List String :=
  ((doc.flatMap fun b =>
    match b with
    | .table rows => rows.flatMap (fun cells => cells.map stripStr)
    | .text l => [stripStr l]).filter (fun l => l ≠ "")).map lowerStr

/-- parse_candidate_times (parsers_bell.py lines 10-27): the table-row scan
over KEY_ROWS followed by the text-line scan over the five line keywords,
each yielding `(matched line, first time found)`. -/
def parse_candidate_times (doc : List HtmlBlock) : List (String × String) :=
  (doc.flatMap fun b =>
    match b with
    | .table rows =>
      rows.filterMap (fun cells =>
        let cells2 := cells.map normCell
        if cells2.isEmpty then none
        else
          let row_text := joinSpaceStr cells2
          if KEY_ROWS.any (fun k => containsSub k row_text) then
            (findTime row_text).map (fun t => (row_text, t))
          else none)
    | .text _ => []) ++
  (docTextLines doc).filterMap (fun line =>
    if LINE_KEYS.any (fun k => containsSub k line) then
      (findTime line).map (fun t => (line, t))
    else none)

/-- choose_dismissal_ai (parsers_bell.py lines 29-50).  The OpenAI client
is abstracted as `oracle`: `some s` is a successful completion whose
stripped content is `s`; `none` is a missing `OPENAI_API_KEY` or any
exception.  In both failure cases the source returns
`candidates[0][1] if candidates else None`; on success it returns the
reply. -/
def choose_dismissal_ai (oracle : Option String)
    (candidates : List (String × String)) (_weekday : String) : Option String :=
  match candidates with
  | [] => none
  | c :: _ =>
    match oracle with
    | none => some c.2
    | some s => some s

/-- parse_dismissal_time_from_html (parsers_bell.py lines 52-65).  `doc` is
the abstracted `html` (empty document for a falsy `html` string);
`preferred_weekday` keeps Python truthiness (`none` and `some ""` are
falsy); a falsy oracle reply falls through to the rule-based scan. -/
def parse_dismissal_time_from_html (doc : List HtmlBlock)
    (preferred_weekday : Option String) (use_ai : Bool)
    (oracle : Option String) : Option String :=
  if doc.isEmpty then none
  else
    let candidates := parse_candidate_times doc
    match candidates with
    | [] => none
    | c0 :: _ =>
      let chosen :=
        if use_ai && (match preferred_weekday with
                      | some w => w != ""
                      | none => false) then
          match choose_dismissal_ai oracle candidates
              (preferred_weekday.getD "") with
          | some s => if s = "" then none else some s
          | none => none
        else none
      match chosen with
      | some s => some s
      | none =>
        match candidates.find? (fun c =>
            containsSub "regular" c.1 || containsSub "dismissal" c.1 ||
            containsSub "release" c.1) with
        | some c => some c.2
        | none => some c0.2

/-! ## core/crawler.py (link scoring and feed-link pick) -/

/-- BELL_HINTS from crawler.py lines 19-22. -/
def BELL_HINTS : List String :=
  ["bell schedule", "bell schedules", "daily schedule", "dismissal",
   "release time", "school hours", "hours & schedule", "hours and schedule",
   "bell time", "bell times"]

/-- TIME_TOKENS from crawler.py line 28 (cheap time signal). -/
def TIME_TOKENS : List String := [" am", " pm", ":"]

/-- _has_time_signal (crawler.py lines 84-86). -/
def _has_time_signal (text : String) : Bool :=
  let t := lowerStr text
  TIME_TOKENS.any (fun tok => containsSub tok t)

/-- score_bell (crawler.py lines 88-99): 8 points per contained hint
phrase, 6 for `bell` co-occurring with `sched`/`time`/`hours`, 4 for
`bell` together with a time signal. -/
def score_bell (text : String) : Nat :=
  let t := lowerStr text
  let score := BELL_HINTS.foldl (fun sc h => if containsSub h t then sc + 8 else sc) 0
  let score :=
    if containsSub "bell" t &&
        (containsSub "sched" t || containsSub "time" t || containsSub "hours" t) then
      score + 6
    else score
  if containsSub "bell" t && _has_time_signal t then score + 4 else score

/-- Spec-side comparator for the time bonus: the hint-phrase and
co-occurrence points of `score_bell` with the clock-time clause removed,
i.e. what a text scores from hints and co-occurrence alone. -/
def score_bell_no_time_bonus (text : String) : Nat :=
  let t := lowerStr text
  let score := BELL_HINTS.foldl (fun sc h => if containsSub h t then sc + 8 else sc) 0
  if containsSub "bell" t &&
      (containsSub "sched" t || containsSub "time" t || containsSub "hours" t) then
    score + 6
  else score

/-- Feed-link test of crawler.py line 121: URL ending in `.ics`/`.ical`,
or anchor text/type containing `text/calendar` or containing `ics`. -/
def ics_link_cond (l : String × String) : Bool :=
  endsWithSub ".ics" (lowerStr l.1) || endsWithSub ".ical" (lowerStr l.1) ||
  containsSub "text/calendar" l.2 || containsSub "ics" l.2

/-- The `ics_url` pick of pick_best_links (crawler.py line 121):
`next((h for h, t in links if ...), None)`, the first anchor satisfying
`ics_link_cond`. -/
def pick_ics_url (links : List (String × String)) : Option String :=
  (links.find? ics_link_cond).map (fun l => l.1)

/-! ## core/parsers_calendar.py -/

/-- NO_SCHOOL_TERMS from parsers_calendar.py lines 11-17. -/
def NO_SCHOOL_TERMS : List String :=
  ["no school", "school closed", "schools closed", "holiday", "break",
   "professional development", "professional learning", "staff development",
   "inservice", "in-service", "teacher work day", "workday", "pupil free",
   "conference (no school)", "conference day", "parent-teacher conference",
   "minimum day", "early release"]

/-- HOLIDAY_NAMES from parse_ics_dates (parsers_calendar.py lines 43-49). -/
def HOLIDAY_NAMES : List String :=
  ["labor day", "veterans day", "thanksgiving", "thanksgiving break",
   "winter break", "winter recess", "spring break", "fall break",
   "mlk day", "martin luther king", "presidents day", "memorial day",
   "independence day", "new year", "christmas", "rosh hashanah",
   "yom kippur", "diwali", "easter monday", "good friday", "chinese new year"]

/-- One event of the `ics` library's Calendar: its title, its begin date
and, when present, its end date (ordinal day numbers). -/
structure IcsEvent where
  name : String
  beginDate : Nat
  endDate : Option Nat
deriving Repr, DecidableEq

/-- Day range `d0 .. d1` of an event (parsers_calendar.py lines 54-59):
`d1 = e.end.date() if e.end else d0`, then `while dd <= d1` collecting
every day; empty when `d1 < d0`. -/
def icsEventDates (e : IcsEvent) : List Nat :=
  let d0 := e.beginDate
  let d1 := e.endDate.getD d0
  (List.range (d1 + 1 - d0)).map (fun k => d0 + k)

/-- parse_ics_dates (parsers_calendar.py lines 31-62).  The whole body is
wrapped in `try ... except Exception: pass`, so every external fault is
soft.  The network fetch is abstracted as `response` (`none` = the request
raised; otherwise the status-ok flag and the body) and the `ics` library's
`Calendar` constructor as `parseCal` (`none` = it raised). -/
def parse_ics_dates (response : Option (Bool × String))
    (parseCal : String → Option (List IcsEvent)) : List Nat :=
  match response with
  | none => []
  | some (ok, body) =>
    if !ok then []
    else
      match parseCal body with
      | none => []
      | some events =>
        events.flatMap (fun e =>
          let title := stripStr (lowerStr e.name)
          if NO_SCHOOL_TERMS.any (fun t => containsSub t title) ||
              HOLIDAY_NAMES.any (fun h => containsSub h title) then
            icsEventDates e
          else [])

/-- The fallback set comprehension
of set-builder form dtp.parse(tok, fuzzy=True).date() per candidate token:
every token parsed in turn, stopping with the exception of the first token
the parser rejects. -/
def parseEveryToken (f : String → Option Nat) :
    List (String × String) → Option (List Nat)
  | [] => some []
  | c :: rest =>
    match f c.2, parseEveryToken f rest with
    | some d, some ds => some (d :: ds)
    | _, _ => none

/-- The strict pass dtp.parse(s).date() over each entry of the oracle's reply. -/
def parseEveryStr (f : String → Option Nat) : List String → Option (List Nat)
  | [] => some []
  | s :: rest =>
    match f s, parseEveryStr f rest with
    | some d, some ds => some (d :: ds)
    | _, _ => none

/-- classify_no_school_ai (parsers_calendar.py lines 74-99).  `parseFuzzy`
abstracts `dtp.parse(tok, fuzzy=True).date()` (`none` = it raised) and
`parseStrict` abstracts `dtp.parse(s).date()`; `oracle` is the completion
call (`none` = missing `OPENAI_API_KEY` or any exception, `some ss` = the
ISO dates recovered from its reply).  The fallback set comprehension over
the candidate tokens runs on the no-key path (line 81) and again inside
the `except` handler (line 99); a token that `dtp.parse` rejects therefore
raises `ValueError` out of the function, modelled as `Except.error`. -/
def classify_no_school_ai (parseFuzzy parseStrict : String → Option Nat)
    (oracle : Option (List String)) (candidates : List (String × String)) :
    Except String (List Nat) :=
  if candidates.isEmpty then .ok []
  else
    let fallback : Except String (List Nat) :=
      match parseEveryToken parseFuzzy candidates with
      | some ds => .ok ds
      | none => .error "ValueError: day is out of range for month"
    match oracle with
    | none => fallback
    | some ss =>
      match parseEveryStr parseStrict ss with
      | some ds => .ok ds
      | none => fallback

/-! ## pages/2_Run_and_Export.py (no-school source selection, lines 179-205) -/

/-- Inputs of the per-school no-school selection in the run loop.  The
three fetch-and-parse results are abstracted as the date sets each tier
would yield (`html_dates` already accounts for an unfetchable calendar
page by being empty); `candidate` is `district_ics_url or
district_ics_map.get(district, "")` with a blank result as `none`. -/
structure NoSchoolInputs where
  ics_url : Option String
  district : Option String
  candidate : Option String
  cal_url : Option String
  school_ics_dates : List Nat
  district_dates : List Nat
  html_dates : List Nat
deriving Repr, DecidableEq

/-- The run loop's no-school accumulation: `no_school = set()`, then
`if ics_url: no_school |= ...`, then `if not no_school and district:`
(with a truthy candidate) `no_school |= ...`, then
`if not no_school and cal_url: no_school |= ...`.  Sets are lists; a
union only ever happens onto the empty set, so it is concatenation. -/
def select_no_school (r : NoSchoolInputs) : List Nat :=
  let ns0 : List Nat := []
  let ns1 := if r.ics_url.isSome then ns0 ++ r.school_ics_dates else ns0
  let ns2 :=
    if ns1.isEmpty && r.district.isSome && r.candidate.isSome then
      ns1 ++ r.district_dates
    else ns1
  if ns2.isEmpty && r.cal_url.isSome then ns2 ++ r.html_dates else ns2

/-! ## Concrete bell-schedule documents used by the tests below -/

/-- A bell table holding a Minimum Day row before a Regular Day row. -/
def docBellTables : List HtmlBlock :=
  [.table [["Minimum Day:", "1:15 pm"], ["Regular Day:", "3:10 pm"]]]

/-- The same table with the two rows swapped. -/
def docBellTablesRev : List HtmlBlock :=
  [.table [["Regular Day:", "3:10 pm"], ["Minimum Day:", "1:15 pm"]]]

/-- The same two schedule lines as plain text instead of table rows. -/
def docBellTextLines : List HtmlBlock :=
  [.text "Minimum Day: 1:15 pm", .text "Regular Day: 3:10 pm"]

/-! ## Shared lemmas -/

/-- Every session the generation loop emits carries the school, window and
dismissal it was started with; only the date varies. -/
theorem mem_genSessionsGo (school : String) (st en dis : Nat)
    (ns : Nat → Bool) (qend : Nat) :
    ∀ fuel remaining d s, s ∈ genSessionsGo school st en dis ns qend fuel remaining d →
      s.school = school ∧ s.start_time = st ∧ s.end_time = en ∧ s.dismissal = dis := by
  intro fuel
  induction fuel with
  | zero => intro remaining d s hs; simp [genSessionsGo] at hs
  | succ f ih =>
    intro remaining d s hs
    unfold genSessionsGo at hs
    split at hs
    · split at hs
      · exact ih _ _ _ hs
      · rcases List.mem_cons.mp hs with h | h
        · subst h; exact ⟨rfl, rfl, rfl, rfl⟩
        · exact ih _ _ _ h
    · simp at hs

/-- The clamped window respects the configured bounds as soon as the
requested duration is nonnegative and fits between `earliest_start` and
`latest_end`. -/
theorem sessionWindow_bounds (p : ScheduleParams) (dismissal : Nat)
    (hlt : p.latest_end < 1440)
    (hd0 : 0 ≤ p.session_duration_minutes)
    (hd1 : p.session_duration_minutes ≤ (p.latest_end : Int) - (p.earliest_start : Int)) :
    p.earliest_start ≤ (sessionWindow p dismissal).1 ∧
    (sessionWindow p dismissal).2 ≤ p.latest_end ∧
    ((sessionWindow p dismissal).2 : Int) - ((sessionWindow p dismissal).1 : Int) ≤
      p.session_duration_minutes := by
  dsimp only [sessionWindow, clamp_start, timeOfMinutes]
  split_ifs with h1 h2 <;> omega

/-- First-match description of `List.find?`. -/
theorem find?_first_match {α : Type} (p : α → Bool) :
    ∀ (l : List α) (a : α), l.find? p = some a →
      ∃ i : Fin l.length, l.get i = a ∧ p (l.get i) = true ∧
        ∀ j : Fin l.length, (j : Nat) < (i : Nat) → p (l.get j) = false := by
  intro l
  induction l with
  | nil => intro a h; cases h
  | cons x xs ih =>
    intro a h
    by_cases hx : p x
    · rw [List.find?_cons_of_pos _ hx] at h
      injection h with h; subst h
      refine ⟨⟨0, Nat.succ_pos _⟩, rfl, hx, ?_⟩
      intro j hj
      exact absurd hj (by simp)
    · rw [List.find?_cons_of_neg _ hx] at h
      obtain ⟨i, h1, h2, h3⟩ := ih a h
      refine ⟨⟨i.val + 1, Nat.succ_lt_succ i.isLt⟩, ?_, ?_, ?_⟩
      · exact h1
      · exact h2
      · intro j hj
        rcases j with ⟨jv, hjlt⟩
        cases jv with
        | zero => exact Bool.eq_false_iff.mpr hx
        | succ k =>
          exact h3 ⟨k, Nat.lt_of_succ_lt_succ (by simpa using hjlt)⟩
            (Nat.lt_of_succ_lt_succ hj)

/-! ## Claim theorems -/

/-- C4: each school's no-school set is drawn from exactly one source tier,
consulted in the order school feed, district feed, page text; a later tier
is consulted only when every earlier applicable tier yielded an empty set,
and dates from two tiers are never merged. -/
theorem no_school_single_tier (r : NoSchoolInputs) :
    select_no_school r =
      if r.ics_url.isSome ∧ r.school_ics_dates ≠ [] then r.school_ics_dates
      else if r.district.isSome ∧ r.candidate.isSome ∧ r.district_dates ≠ [] then
        r.district_dates
      else if r.cal_url.isSome then r.html_dates
      else [] := by
  obtain ⟨iu, di, ca, cu, sd, dd, hd⟩ := r
  cases iu <;> cases di <;> cases ca <;> cases cu <;> cases sd <;> cases dd <;>
    simp [select_no_school]

/-- C5 counterexample: an anchor whose text merely contains the letters
`ics` (here `physics club`) is chosen as the feed link although its URL
has no feed-file extension and its text does not name the calendar MIME
type. -/
theorem ics_pick_counterexample :
    pick_ics_url [("http://x/physics", "physics club")] = some "http://x/physics" ∧
    (endsWithSub ".ics" (lowerStr "http://x/physics") ||
     endsWithSub ".ical" (lowerStr "http://x/physics") ||
     containsSub "text/calendar" "physics club") = false := by
  exact ⟨rfl, by decide⟩

/-- C5 (amended): the chosen feed link is the first anchor whose URL ends
in a feed-file extension, or whose text/type metadata contains the
calendar MIME type or the substring `ics`; if no anchor satisfies any of
the three, the feed result is absent. -/
theorem ics_pick_first_satisfying (links : List (String × String)) :
    ((∀ l ∈ links, ics_link_cond l = false) → pick_ics_url links = none) ∧
    (∀ u, pick_ics_url links = some u →
      ∃ i : Fin links.length, (links.get i).1 = u ∧ ics_link_cond (links.get i) = true ∧
        ∀ j : Fin links.length, (j : Nat) < (i : Nat) →
          ics_link_cond (links.get j) = false) := by
  constructor
  · intro h
    unfold pick_ics_url
    rw [List.find?_eq_none.mpr (fun x hx => by simp [h x hx])]
    rfl
  · intro u hu
    unfold pick_ics_url at hu
    cases hfind : links.find? ics_link_cond with
    | none => rw [hfind] at hu; cases hu
    | some l =>
      rw [hfind] at hu
      injection hu with hu
      obtain ⟨i, h1, h2, h3⟩ := find?_first_match ics_link_cond links l hfind
      exact ⟨i, by rw [h1]; exact hu, h2, h3⟩

/-- C5 witness. -/
theorem ics_pick_first_satisfying_witness :
    pick_ics_url [("http://a/home", "welcome")] = none :=
  (ics_pick_first_satisfying [("http://a/home", "welcome")]).1 (by decide)

/-- C6 counterexample: `dismissal 3:05 pm` carries a clock-time token yet
its bell score equals its hint-phrase score alone — the +4 time bonus is
granted only when the text also contains `bell`. -/
theorem score_bell_counterexample :
    _has_time_signal "dismissal 3:05 pm" = true ∧
    containsSub "bell" (lowerStr "dismissal 3:05 pm") = false ∧
    score_bell "dismissal 3:05 pm" = score_bell_no_time_bonus "dismissal 3:05 pm" ∧
    ¬ score_bell_no_time_bonus "dismissal 3:05 pm" < score_bell "dismissal 3:05 pm" := by
  refine ⟨by decide, by decide, by decide, by decide⟩

/-- C6 (amended): whenever the text contains `bell` together with a
clock-time token, score_bell grants the fixed +4 bonus on top of the
hint-phrase and co-occurrence points, hence strictly exceeds them. -/
theorem score_bell_time_bonus (text : String)
    (hb : containsSub "bell" (lowerStr text) = true)
    (ht : _has_time_signal (lowerStr text) = true) :
    score_bell text = score_bell_no_time_bonus text + 4 ∧
    score_bell_no_time_bonus text < score_bell text := by
  constructor
  · simp [score_bell, score_bell_no_time_bonus, hb, ht]
  · simp [score_bell, score_bell_no_time_bonus, hb, ht]

/-- C6 witness. -/
theorem score_bell_time_bonus_witness :
    score_bell "bell 3 pm" = score_bell_no_time_bonus "bell 3 pm" + 4 ∧
    score_bell_no_time_bonus "bell 3 pm" < score_bell "bell 3 pm" :=
  score_bell_time_bonus "bell 3 pm" (by decide) (by decide)

/-- Canonical full name of each weekday index of the table (spec-side
helper for stating that abbreviations agree with the full names). -/
def canonicalWeekdayName : Nat → String
  | 0 => "monday"
  | 1 => "tuesday"
  | 2 => "wednesday"
  | 3 => "thursday"
  | _ => "friday"

/-- C9: _weekday_index succeeds exactly on strings whose trimmed lowercase
form, or its first three characters, is a key of the table; weekend names
all raise, while `friend` and `mondays` silently resolve. -/
theorem weekday_index_characterization :
    (∀ s : String, (∃ n, _weekday_index s = .ok n) ↔
      ((WEEKDAYS.lookup (lowerStr (stripStr s))).isSome ∨
       (WEEKDAYS.lookup (takeStr (lowerStr (stripStr s)) 3)).isSome)) ∧
    _weekday_index "Saturday" = .error "Unrecognized weekday: Saturday" ∧
    _weekday_index "Sat" = .error "Unrecognized weekday: Sat" ∧
    _weekday_index "Sunday" = .error "Unrecognized weekday: Sunday" ∧
    _weekday_index "Sun" = .error "Unrecognized weekday: Sun" ∧
    _weekday_index "friend" = .ok 4 ∧
    _weekday_index "mondays" = .ok 0 := by
  refine ⟨fun s => ?_, rfl, rfl, rfl, rfl, rfl, rfl⟩
  unfold _weekday_index
  split_ifs with hs
  · subst hs
    constructor
    · rintro ⟨n, hn⟩; cases hn
    · intro h; exact absurd h (by decide)
  · cases hl : WEEKDAYS.lookup (lowerStr (stripStr s)) with
    | some v => simp [hl]
    | none =>
      cases hl2 : WEEKDAYS.lookup (takeStr (lowerStr (stripStr s)) 3) with
      | some v => simp [hl, hl2]
      | none => simp [hl, hl2]

/-- C8 counterexample: `friend` is not a weekday spelling, yet
compute_weekly_sessions accepts it (its first three letters spell `fri`)
and returns sessions instead of failing. -/
theorem weekday_invalid_accepted_counterexample :
    compute_weekly_sessions "s" "friend" 840 1 7 ⟨0, 60, 840, 1020, 1, 0⟩
        (fun _ => false) = .ok [⟨"s", 5, 840, 900, 840⟩] ∧
    "friend" ∉ WEEKDAYS.map Prod.fst := by
  exact ⟨rfl, by decide⟩

/-- C8 (amended): every spelling in the table resolves to the same index
as the canonical full name of its weekday; compute_weekly_sessions fails
with a ValueError only for strings whose trimmed lowercase form and its
first three characters are both absent from the table (so strings such as
`friend` are accepted). -/
theorem weekday_spellings_and_rejection :
    (∀ p ∈ WEEKDAYS, _weekday_index p.1 = .ok p.2 ∧
      _weekday_index p.1 = _weekday_index (canonicalWeekdayName p.2)) ∧
    (∀ s : String, WEEKDAYS.lookup (lowerStr (stripStr s)) = none →
      WEEKDAYS.lookup (takeStr (lowerStr (stripStr s)) 3) = none →
      ∀ (school : String) (dismissal qs qe : Nat) (p : ScheduleParams)
        (ns : Nat → Bool),
        ∃ e, compute_weekly_sessions school s dismissal qs qe p ns = .error e) := by
  constructor
  · intro p hp
    fin_cases hp <;> exact ⟨rfl, rfl⟩
  · intro s h1 h2 school dismissal qs qe p ns
    by_cases hs : s = ""
    · subst hs
      exact ⟨"Weekday string is empty or None.", rfl⟩
    · refine ⟨"Unrecognized weekday: " ++ s, ?_⟩
      unfold compute_weekly_sessions _weekday_index
      simp [hs, h1, h2]

/-- C8 witness. -/
theorem weekday_spellings_and_rejection_witness :
    _weekday_index "tues" = .ok 1 ∧
    (∃ e, compute_weekly_sessions "s" "xyz" 840 1 7 ⟨0, 60, 840, 1020, 1, 0⟩
        (fun _ => false) = .error e) :=
  ⟨(weekday_spellings_and_rejection.1 ("tues", 1) (by decide)).1,
   weekday_spellings_and_rejection.2 "xyz" rfl rfl "s" 840 1 7
     ⟨0, 60, 840, 1020, 1, 0⟩ (fun _ => false)⟩

/-- C2 counterexample: with the oracle enabled and failing (no credential
or an exception), the parser returns the first candidate's time
`1:15 pm`, while rule-based selection over the same candidates (oracle
disabled) returns `3:10 pm` — the failure path does not fall back to
rule-based selection. -/
theorem oracle_failure_counterexample :
    parse_dismissal_time_from_html docBellTables (some "monday") true none =
      some "1:15 pm" ∧
    parse_dismissal_time_from_html docBellTables (some "monday") false none =
      some "3:10 pm" := by
  exact ⟨rfl, rfl⟩

/-- C2 (amended): when the oracle is enabled with a truthy preferred
weekday and fails (missing credential or any exception), the parser
returns the first candidate's time, bypassing the rule-based keyword
scan; the scan runs only when the oracle path yields no answer string. -/
theorem oracle_failure_returns_first_candidate (doc : List HtmlBlock)
    (pw : String) (hpw : pw ≠ "") (c : String × String)
    (rest : List (String × String))
    (hc : parse_candidate_times doc = c :: rest) (hne : c.2 ≠ "") :
    parse_dismissal_time_from_html doc (some pw) true none = some c.2 := by
  have hdoc : doc.isEmpty = false := by
    cases doc with
    | nil => simp [parse_candidate_times, docTextLines] at hc
    | cons b bs => rfl
  unfold parse_dismissal_time_from_html
  rw [hdoc, hc]
  simp [choose_dismissal_ai, hpw, hne]

/-- C2 witness. -/
theorem oracle_failure_returns_first_candidate_witness :
    parse_dismissal_time_from_html docBellTables (some "monday") true none =
      some "1:15 pm" :=
  oracle_failure_returns_first_candidate docBellTables "monday" (by decide)
    ("minimum day: 1:15 pm", "1:15 pm") [("regular day: 3:10 pm", "3:10 pm")]
    rfl (by decide)

/-- C7 counterexample: when the two schedule lines appear as plain text
rather than table rows, the `Regular Day` line is not scanned (its
keywords are absent from the text-scan list) and the parser returns
`1:15 pm`, not `3:10 pm`. -/
theorem regular_day_plaintext_counterexample :
    parse_dismissal_time_from_html docBellTextLines none false none =
      some "1:15 pm" ∧
    parse_dismissal_time_from_html docBellTextLines none false none ≠
      some "3:10 pm" := by
  exact ⟨rfl, by decide⟩

/-- C7 (amended): when the Minimum Day and Regular Day rows appear as
table rows (in either order), rule-based selection with the oracle
disabled returns `3:10 pm`; as plain text lines the Regular Day row is
not even a candidate. -/
theorem regular_day_preferred_in_tables :
    parse_dismissal_time_from_html docBellTables none false none =
      some "3:10 pm" ∧
    parse_dismissal_time_from_html docBellTablesRev none false none =
      some "3:10 pm" := by
  exact ⟨rfl, rfl⟩

/-- C3: classify_no_school_ai is not exception-free — when the oracle path
is unavailable and a candidate token is not a parseable date (the
extraction regex admits tokens like `feb 30`), the fallback comprehension
raises ValueError out of the function instead of producing a best-effort
set. -/
theorem classify_no_school_raises (parseFuzzy parseStrict : String → Option Nat)
    (hf : parseFuzzy "feb 30" = none) :
    classify_no_school_ai parseFuzzy parseStrict none
        [("no school feb 30", "feb 30")] =
      .error "ValueError: day is out of range for month" := by
  unfold classify_no_school_ai
  simp [parseEveryToken, hf]

/-- C3 witness. -/
theorem classify_no_school_raises_witness :
    classify_no_school_ai (fun _ => none) (fun _ => none) none
        [("no school feb 30", "feb 30")] =
      .error "ValueError: day is out of range for month" :=
  classify_no_school_raises (fun _ => none) (fun _ => none) rfl

/-- C1 counterexample: with dismissal 2:00 pm (840), buffer 0, duration
300, earliest 2:00 pm and latest 5:00 pm (so earliest < latest), the
emitted session is clamped back to a 12:00 pm start — before
earliest_start — because the requested duration does not fit between the
two bounds. -/
theorem session_window_counterexample :
    compute_weekly_sessions "s" "mon" 840 1 1 ⟨0, 300, 840, 1020, 1, 0⟩
        (fun _ => false) = .ok [⟨"s", 1, 720, 1020, 840⟩] ∧
    ¬ ((⟨0, 300, 840, 1020, 1, 0⟩ : ScheduleParams).earliest_start ≤
        (Session.mk "s" 1 720 1020 840).start_time) := by
  exact ⟨rfl, by decide⟩

/-- C1 (amended): for every dismissal time, buffer, and params whose
latest_end is a time of day with earliest_start < latest_end, provided
additionally 0 ≤ session_duration_minutes ≤ latest_end − earliest_start,
every emitted session satisfies earliest_start ≤ start_time,
end_time ≤ latest_end and end_time − start_time ≤
session_duration_minutes; without the duration bound the start clamp can
push start_time before earliest_start. -/
theorem compute_sessions_window_bounds
    (school weekday_str : String) (dismissal quarter_start quarter_end : Nat)
    (p : ScheduleParams) (ns : Nat → Bool) (sessions : List Session) (s : Session)
    (hlt : p.latest_end < 1440)
    (hel : p.earliest_start < p.latest_end)
    (hd0 : 0 ≤ p.session_duration_minutes)
    (hd1 : p.session_duration_minutes ≤ (p.latest_end : Int) - (p.earliest_start : Int))
    (hok : compute_weekly_sessions school weekday_str dismissal quarter_start
        quarter_end p ns = .ok sessions)
    (hs : s ∈ sessions) :
    p.earliest_start ≤ s.start_time ∧ s.end_time ≤ p.latest_end ∧
    (s.end_time : Int) - (s.start_time : Int) ≤ p.session_duration_minutes := by
  unfold compute_weekly_sessions at hok
  cases hwi : _weekday_index weekday_str with
  | error e => rw [hwi] at hok; cases hok
  | ok wd =>
    rw [hwi] at hok
    dsimp only at hok
    injection hok with hok
    subst hok
    obtain ⟨h1, h2, h3, h4⟩ :=
      mem_genSessionsGo school _ _ dismissal ns quarter_end _ _ _ s hs
    have hb := sessionWindow_bounds p dismissal hlt hd0 hd1
    rw [h2, h3]
    exact hb

/-- C1 witness. -/
theorem compute_sessions_window_bounds_witness :
    (⟨0, 60, 840, 1020, 1, 0⟩ : ScheduleParams).earliest_start ≤
      (Session.mk "s" 1 840 900 840).start_time ∧
    (Session.mk "s" 1 840 900 840).end_time ≤
      (⟨0, 60, 840, 1020, 1, 0⟩ : ScheduleParams).latest_end ∧
    ((Session.mk "s" 1 840 900 840).end_time : Int) -
      ((Session.mk "s" 1 840 900 840).start_time : Int) ≤
      (⟨0, 60, 840, 1020, 1, 0⟩ : ScheduleParams).session_duration_minutes :=
  compute_sessions_window_bounds "s" "mon" 840 1 1 ⟨0, 60, 840, 1020, 1, 0⟩
    (fun _ => false) [⟨"s", 1, 840, 900, 840⟩] ⟨"s", 1, 840, 900, 840⟩
    (by decide) (by decide) (by decide) (by decide) rfl (by simp)

/-- C10: within one call, every emitted session carries the same school,
start_time, end_time and dismissal — the window is computed once before
the date loop, so two sessions of one result differ only in their date. -/
theorem compute_sessions_uniform_window
    (school weekday_str : String) (dismissal quarter_start quarter_end : Nat)
    (p : ScheduleParams) (ns : Nat → Bool) (sessions : List Session)
    (s1 s2 : Session)
    (hok : compute_weekly_sessions school weekday_str dismissal quarter_start
        quarter_end p ns = .ok sessions)
    (h1 : s1 ∈ sessions) (h2 : s2 ∈ sessions) :
    s1.school = s2.school ∧ s1.start_time = s2.start_time ∧
    s1.end_time = s2.end_time ∧ s1.dismissal = s2.dismissal := by
  unfold compute_weekly_sessions at hok
  cases hwi : _weekday_index weekday_str with
  | error e => rw [hwi] at hok; cases hok
  | ok wd =>
    rw [hwi] at hok
    dsimp only at hok
    injection hok with hok
    subst hok
    obtain ⟨a1, a2, a3, a4⟩ :=
      mem_genSessionsGo school _ _ dismissal ns quarter_end _ _ _ s1 h1
    obtain ⟨b1, b2, b3, b4⟩ :=
      mem_genSessionsGo school _ _ dismissal ns quarter_end _ _ _ s2 h2
    exact ⟨a1.trans b1.symm, a2.trans b2.symm, a3.trans b3.symm, a4.trans b4.symm⟩

/-- C10 witness. -/
theorem compute_sessions_uniform_window_witness :
    (Session.mk "s" 1 840 900 840).school = (Session.mk "s" 8 840 900 840).school ∧
    (Session.mk "s" 1 840 900 840).start_time =
      (Session.mk "s" 8 840 900 840).start_time ∧
    (Session.mk "s" 1 840 900 840).end_time =
      (Session.mk "s" 8 840 900 840).end_time ∧
    (Session.mk "s" 1 840 900 840).dismissal =
      (Session.mk "s" 8 840 900 840).dismissal :=
  compute_sessions_uniform_window "s" "mon" 840 1 8 ⟨0, 60, 840, 1020, 2, 0⟩
    (fun _ => false) [⟨"s", 1, 840, 900, 840⟩, ⟨"s", 8, 840, 900, 840⟩]
    ⟨"s", 1, 840, 900, 840⟩ ⟨"s", 8, 840, 900, 840⟩ rfl (by simp) (by simp)
